import Mathlib

/-!
Verification development for the issue-tracker REST backend.

The definitions below are a shallow embedding of the TypeScript source:
the MongoDB document collections become Lean lists, ObjectIds become
strings, `Date` values become natural-number millisecond timestamps, and
the Mongo query/aggregation pipelines used by the controllers become
explicit list computations.  JavaScript numeric expressions (which the
source applies to small exact counts) are embedded as exact arithmetic,
with `Number.prototype.toFixed(1)` modelled as round-half-up decimal
rendering per the ECMAScript specification.
-/

set_option maxHeartbeats 1000000

/-- An issue document, following the mongoose schema in `models/Issue.ts`.
`status`, `priority` and `severity` are stored as strings (the schema
declares string enums), `createdBy`/`assignedTo` hold user ObjectIds,
and the timestamps are epoch milliseconds. -/
structure Issue where
  title : String
  description : String
  status : String
  priority : String
  severity : String
  createdBy : String
  assignedTo : Option String
  createdAt : Nat
  updatedAt : Nat
  resolvedAt : Option Nat
deriving DecidableEq, Repr

/-- The body of a `PUT /api/issues/:id` request, as destructured at the top
of `updateIssue`.  Every field is optional; a present field carries the raw
string from the JSON body (`assignedTo` carries a user id string). -/
structure UpdateRequest where
  title : Option String := none
  description : Option String := none
  status : Option String := none
  priority : Option String := none
  severity : Option String := none
  assignedTo : Option String := none
deriving DecidableEq, Repr

/-- JavaScript truthiness of an optional string field: `undefined`/`null`
(absent) and the empty string are falsy. -/
def jsTruthy : Option String → Bool
  | none => false
  | some s => !s.isEmpty

/-- The `updateFields` object assembled by `updateIssue` before the
`findByIdAndUpdate` call; a `none` field is absent from the `$set`. -/
structure UpdateFields where
  title : Option String := none
  description : Option String := none
  status : Option String := none
  priority : Option String := none
  severity : Option String := none
  assignedTo : Option String := none
  resolvedAt : Option Nat := none
deriving DecidableEq, Repr

/-- The guard `status && (status === "Resolved" || status === "Closed") &&
issue.status !== status` from `updateIssue`. -/
def stampResolved (issue : Issue) (r : UpdateRequest) : Bool :=
  match r.status with
  | none => false
  | some s => !s.isEmpty && (s == "Resolved" || s == "Closed") && !(issue.status == s)

/-- The sequence of `if (field) updateFields.field = field` statements in
`updateIssue`, plus the conditional `updateFields.resolvedAt = Date.now()`. -/
def buildUpdateFields (issue : Issue) (r : UpdateRequest) (now : Nat) : UpdateFields :=
  { title := if jsTruthy r.title then r.title else none
    description := if jsTruthy r.description then r.description else none
    status := if jsTruthy r.status then r.status else none
    priority := if jsTruthy r.priority then r.priority else none
    severity := if jsTruthy r.severity then r.severity else none
    assignedTo := if jsTruthy r.assignedTo then r.assignedTo else none
    resolvedAt := if stampResolved issue r then some now else none }

/-- `Issue.findByIdAndUpdate(id, \x7b $set: updateFields \x7d)`: fields present
in the `$set` replace the stored ones, absent fields are untouched;
mongoose `timestamps: true` refreshes `updatedAt`. -/
def applySet (i : Issue) (u : UpdateFields) (now : Nat) : Issue :=
  { i with
    title := u.title.getD i.title
    description := u.description.getD i.description
    status := u.status.getD i.status
    priority := u.priority.getD i.priority
    severity := u.severity.getD i.severity
    assignedTo := match u.assignedTo with | some a => some a | none => i.assignedTo
    resolvedAt := match u.resolvedAt with | some t => some t | none => i.resolvedAt
    updatedAt := now }

/-- The `updateIssue` controller's effect on the stored issue document
(the found-by-id document `i`, request body `r`, at time `now`). -/
def updateIssue (i : Issue) (r : UpdateRequest) (now : Nat) : Issue :=
  applySet i (buildUpdateFields i r now) now

/-- A user document from `models/User.ts` (the password holds the bcrypt
hash, never cleartext). -/
structure UserRec where
  id : String
  name : String
  email : String
  password : String
deriving DecidableEq, Repr

/-- `User.findById(id)` over the user collection. -/
def findUserById (users : List UserRec) (id : String) : Option UserRec :=
  users.find? (fun u => u.id == id)

/-- A Mongo `$group: \x7b _id: "$k", count: \x7b $sum: 1 \x7d \x7d` stage over a list of
group-key values: one entry per distinct value, with its multiplicity. -/
def valueCounts {α : Type} [DecidableEq α] (l : List α) : List (α × Nat) :=
  l.dedup.map (fun k => (k, l.count k))

/-- Grouping the issues of a scope by a string-valued field. -/
def groupCounts (key : Issue → String) (l : List Issue) : List (String × Nat) :=
  valueCounts (l.map key)

/-- The scope `createdBy: userId` used by the dashboard and the per-user
analytics. -/
def createdScope (userId : String) (issues : List Issue) : List Issue :=
  issues.filter (fun i => i.createdBy == userId)

/-- The scope `assignedTo: userId`. -/
def assignedScope (userId : String) (issues : List Issue) : List Issue :=
  issues.filter (fun i => i.assignedTo == some userId)

/-- Decimal rendering of the nonnegative rational `num / den` with exactly
one fractional digit, rounding half up: the behaviour of
`Number.prototype.toFixed(1)` on a nonnegative value (ES2023 6.1.6.1.6 picks
the closer scaled integer, and the larger one on a tie), with the source's
floating-point arithmetic embedded as exact rational arithmetic.
Requires `den > 0`; the callers below all guard the denominator. -/
def toFixed1Frac (num den : Nat) : String :=
  let n := (num * 20 + den) / (2 * den)
  String.mk (Nat.toDigits 10 (n / 10) ++ '.' :: Nat.toDigits 10 (n % 10))

/-- One row of a breakdown-with-percentage response
(`\x7b status|priority|severity, count, percentage \x7d`). -/
structure BreakdownEntry where
  label : String
  count : Nat
  percentage : String
deriving DecidableEq, Repr

/-- The percentage expression repeated throughout the controllers:
`total > 0 ? ((count / total) * 100).toFixed(1) : "0"`. -/
def percentOf (count total : Nat) : String :=
  if total > 0 then toFixed1Frac (count * 100) total else "0"

/-- Modelled from the spec's words (shared algorithmic contract):
percentage is `round((part / whole) * 100, 1 decimal)` represented as a
string, and `whole = 0` yields the string "0".  `round` here is Mathlib's
round-half-up on exact rationals. -/
def specPercentage (part whole : Nat) : String :=
  if whole = 0 then "0"
  else
    let n := (round ((part : ℚ) / whole * 100 * 10)).toNat
    String.mk (Nat.toDigits 10 (n / 10) ++ '.' :: Nat.toDigits 10 (n % 10))

lemma round_natCast_div (a b : Nat) (hb : 0 < b) :
    round ((a : ℚ) / b) = ((2 * a + b) / (2 * b) : Nat) := by
  have hb' : ((b : ℚ)) ≠ 0 := by exact_mod_cast hb.ne'
  rw [round_eq]
  have harg : (a : ℚ) / b + 1 / 2 = (((2 * a + b : Nat) : ℤ) : ℚ) / ((2 * b : Nat) : ℚ) := by
    push_cast
    field_simp
    ring
  rw [harg, Rat.floor_intCast_div_natCast]
  push_cast [Int.ofNat_div]
  norm_num

/-- The controllers' inline percentage expression agrees with the spec's
percentage contract on every count/total pair. -/
lemma percentOf_eq_specPercentage (c t : Nat) :
    percentOf c t = specPercentage c t := by
  unfold percentOf specPercentage toFixed1Frac
  rcases Nat.eq_zero_or_pos t with ht | ht
  · simp [ht]
  · rw [if_pos ht, if_neg ht.ne']
    have harg : (c : ℚ) / t * 100 * 10 = ((1000 * c : Nat) : ℚ) / t := by
      push_cast
      field_simp
      ring
    rw [harg, round_natCast_div _ _ ht]
    have hnum : c * 100 * 20 + t = 2 * (1000 * c) + t := by ring
    rw [hnum, Int.toNat_ofNat]

/-- The Mongo `$sort: \x7b count: -1 \x7d` stage applied by `getGeneralAnalytics`
to its grouped breakdowns: descending by count, stable on ties. -/
def countDescRel (a b : String × Nat) : Prop := b.2 ≤ a.2

instance : DecidableRel countDescRel :=
  fun a b => inferInstanceAs (Decidable (b.2 ≤ a.2))

def sortByCountDesc (l : List (String × Nat)) : List (String × Nat) :=
  l.insertionSort countDescRel

/-- The match `resolvedAt: \x7b $exists: true, $ne: null \x7d` of the resolution
statistics pipelines. -/
def resolutionMatch (i : Issue) : Bool := i.resolvedAt.isSome

/-- Number of issues of a scope with a stamped `resolvedAt`
(the `totalResolved: \x7b $sum: 1 \x7d` accumulator). -/
def totalResolved (issues : List Issue) : Nat :=
  (issues.filter resolutionMatch).length

/-- `statusBreakdownWithPercent` of `getGeneralAnalytics`: group all issues
by status, sort by count descending, attach `count / totalIssues` percents. -/
def generalStatusBreakdown (issues : List Issue) : List BreakdownEntry :=
  (sortByCountDesc (groupCounts (fun i => i.status) issues)).map
    (fun s => { label := s.1, count := s.2, percentage := percentOf s.2 issues.length })

/-- `priorityBreakdownWithPercent` of `getGeneralAnalytics`. -/
def generalPriorityBreakdown (issues : List Issue) : List BreakdownEntry :=
  (sortByCountDesc (groupCounts (fun i => i.priority) issues)).map
    (fun s => { label := s.1, count := s.2, percentage := percentOf s.2 issues.length })

/-- `severityBreakdownWithPercent` of `getGeneralAnalytics`. -/
def generalSeverityBreakdown (issues : List Issue) : List BreakdownEntry :=
  (sortByCountDesc (groupCounts (fun i => i.severity) issues)).map
    (fun s => { label := s.1, count := s.2, percentage := percentOf s.2 issues.length })

/-- `resolutionRate` of `getGeneralAnalytics`:
`totalIssues > 0 ? ((totalResolved / totalIssues) * 100).toFixed(1) : "0"`. -/
def generalResolutionRate (issues : List Issue) : String :=
  percentOf (totalResolved issues) issues.length

/-- `myStatusBreakdown` of `getDashboard`: the caller's created issues
grouped by status, percentages relative to `myIssues`. -/
def dashboardStatusBreakdown (userId : String) (issues : List Issue) : List BreakdownEntry :=
  (groupCounts (fun i => i.status) (createdScope userId issues)).map
    (fun s => { label := s.1, count := s.2,
                percentage := percentOf s.2 (createdScope userId issues).length })

/-- `myPriorityBreakdown` of `getDashboard`. -/
def dashboardPriorityBreakdown (userId : String) (issues : List Issue) : List BreakdownEntry :=
  (groupCounts (fun i => i.priority) (createdScope userId issues)).map
    (fun s => { label := s.1, count := s.2,
                percentage := percentOf s.2 (createdScope userId issues).length })

/-- `mySeverityBreakdown` of `getDashboard`. -/
def dashboardSeverityBreakdown (userId : String) (issues : List Issue) : List BreakdownEntry :=
  (groupCounts (fun i => i.severity) (createdScope userId issues)).map
    (fun s => { label := s.1, count := s.2,
                percentage := percentOf s.2 (createdScope userId issues).length })

/-- `createdStatusBreakdownWithPercent` of `getUserAnalytics` (facet over
`createdBy: userId`, percentages relative to `totalCreated`). -/
def userCreatedStatusBreakdown (userId : String) (issues : List Issue) : List BreakdownEntry :=
  (groupCounts (fun i => i.status) (createdScope userId issues)).map
    (fun s => { label := s.1, count := s.2,
                percentage := percentOf s.2 (createdScope userId issues).length })

/-- `createdPriorityBreakdownWithPercent` of `getUserAnalytics`. -/
def userCreatedPriorityBreakdown (userId : String) (issues : List Issue) : List BreakdownEntry :=
  (groupCounts (fun i => i.priority) (createdScope userId issues)).map
    (fun s => { label := s.1, count := s.2,
                percentage := percentOf s.2 (createdScope userId issues).length })

/-- `createdSeverityBreakdownWithPercent` of `getUserAnalytics`. -/
def userCreatedSeverityBreakdown (userId : String) (issues : List Issue) : List BreakdownEntry :=
  (groupCounts (fun i => i.severity) (createdScope userId issues)).map
    (fun s => { label := s.1, count := s.2,
                percentage := percentOf s.2 (createdScope userId issues).length })

/-- The assigned-side status breakdown of `getUserAnalytics` (facet over
`assignedTo: userId`, percentages relative to `totalAssigned`). -/
def userAssignedStatusBreakdown (userId : String) (issues : List Issue) : List BreakdownEntry :=
  (groupCounts (fun i => i.status) (assignedScope userId issues)).map
    (fun s => { label := s.1, count := s.2,
                percentage := percentOf s.2 (assignedScope userId issues).length })

/-- `resolutionRate` of `getUserAnalytics`: resolved issues among those
created by the target user, relative to `totalCreated`. -/
def userResolutionRate (userId : String) (issues : List Issue) : String :=
  percentOf (totalResolved (createdScope userId issues)) (createdScope userId issues).length

/-- A rendered percentage always contains a decimal point (or is the
literal "0"), hence is never the strings "NaN" or "undefined". -/
lemma specPercentage_ne_js_garbage (p w : Nat) :
    specPercentage p w ≠ "NaN" ∧ specPercentage p w ≠ "undefined" := by
  unfold specPercentage
  rcases Nat.eq_zero_or_pos w with hw | hw
  · simp [hw]
  · rw [if_neg hw.ne']
    set n := (round ((p : ℚ) / w * 100 * 10)).toNat with hn
    constructor
    · intro h
      have hdata : Nat.toDigits 10 (n / 10) ++ '.' :: Nat.toDigits 10 (n % 10) =
          String.data "NaN" := congrArg String.data h
      have hmem : ('.' : Char) ∈ Nat.toDigits 10 (n / 10) ++ '.' :: Nat.toDigits 10 (n % 10) :=
        List.mem_append_right _ (List.mem_cons_self _ _)
      rw [hdata] at hmem
      simp at hmem
    · intro h
      have hdata : Nat.toDigits 10 (n / 10) ++ '.' :: Nat.toDigits 10 (n % 10) =
          String.data "undefined" := congrArg String.data h
      have hmem : ('.' : Char) ∈ Nat.toDigits 10 (n / 10) ++ '.' :: Nat.toDigits 10 (n % 10) :=
        List.mem_append_right _ (List.mem_cons_self _ _)
      rw [hdata] at hmem
      simp at hmem

lemma mem_breakdown_percentage (T : Nat) (l : List (String × Nat)) (e : BreakdownEntry)
    (he : e ∈ l.map (fun s =>
      ({ label := s.1, count := s.2, percentage := percentOf s.2 T } : BreakdownEntry))) :
    e.percentage = specPercentage e.count T := by
  rcases List.mem_map.1 he with ⟨s, _, rfl⟩
  exact percentOf_eq_specPercentage s.2 T

lemma count_map_mk (T : Nat) (l : List (String × Nat)) :
    ((l.map (fun s =>
        ({ label := s.1, count := s.2, percentage := percentOf s.2 T } : BreakdownEntry))).map
      BreakdownEntry.count) = l.map Prod.snd := by
  rw [List.map_map]
  rfl

lemma sum_snd_sortByCountDesc (l : List (String × Nat)) :
    ((sortByCountDesc l).map Prod.snd).sum = (l.map Prod.snd).sum :=
  List.Perm.sum_eq ((List.perm_insertionSort countDescRel l).map Prod.snd)

lemma sum_snd_groupCounts (key : Issue → String) (l : List Issue) :
    ((groupCounts key l).map Prod.snd).sum = l.length := by
  unfold groupCounts valueCounts
  simpa [Function.comp, List.map_map] using
    List.sum_map_count_dedup_eq_length (l.map key)

/-- A generic issue record used to instantiate concrete scenarios. -/
def mkIssue (st pr sv : String) (cb : String) (asg : Option String) (ca : Nat)
    (ra : Option Nat) : Issue :=
  { title := "t", description := "d", status := st, priority := pr, severity := sv,
    createdBy := cb, assignedTo := asg, createdAt := ca, updatedAt := ca, resolvedAt := ra }

/-- Claim C2: each percentage field produced by the dashboard, general-analytics
and user-analytics breakdowns (status, priority, severity, resolutionRate)
equals (count / scoped total) · 100 rounded to one decimal and rendered as
a string; whenever the scoped total is 0 the field is the string "0", and
the rendered value is never "NaN" or "undefined". -/
theorem percentage_fields_follow_spec (issues : List Issue) (userId : String) :
    (∀ e ∈ generalStatusBreakdown issues, e.percentage = specPercentage e.count issues.length) ∧
    (∀ e ∈ generalPriorityBreakdown issues, e.percentage = specPercentage e.count issues.length) ∧
    (∀ e ∈ generalSeverityBreakdown issues, e.percentage = specPercentage e.count issues.length) ∧
    generalResolutionRate issues = specPercentage (totalResolved issues) issues.length ∧
    (∀ e ∈ dashboardStatusBreakdown userId issues,
        e.percentage = specPercentage e.count (createdScope userId issues).length) ∧
    (∀ e ∈ dashboardPriorityBreakdown userId issues,
        e.percentage = specPercentage e.count (createdScope userId issues).length) ∧
    (∀ e ∈ dashboardSeverityBreakdown userId issues,
        e.percentage = specPercentage e.count (createdScope userId issues).length) ∧
    (∀ e ∈ userCreatedStatusBreakdown userId issues,
        e.percentage = specPercentage e.count (createdScope userId issues).length) ∧
    (∀ e ∈ userCreatedPriorityBreakdown userId issues,
        e.percentage = specPercentage e.count (createdScope userId issues).length) ∧
    (∀ e ∈ userCreatedSeverityBreakdown userId issues,
        e.percentage = specPercentage e.count (createdScope userId issues).length) ∧
    (∀ e ∈ userAssignedStatusBreakdown userId issues,
        e.percentage = specPercentage e.count (assignedScope userId issues).length) ∧
    userResolutionRate userId issues =
      specPercentage (totalResolved (createdScope userId issues))
        (createdScope userId issues).length ∧
    (∀ p w : Nat, specPercentage p w ≠ "NaN" ∧ specPercentage p w ≠ "undefined") ∧
    (∀ p : Nat, specPercentage p 0 = "0") := by
  refine ⟨?_, ?_, ?_, ?_, ?_, ?_, ?_, ?_, ?_, ?_, ?_, ?_, ?_, ?_⟩
  · exact fun e he => mem_breakdown_percentage _ _ e he
  · exact fun e he => mem_breakdown_percentage _ _ e he
  · exact fun e he => mem_breakdown_percentage _ _ e he
  · exact percentOf_eq_specPercentage _ _
  · exact fun e he => mem_breakdown_percentage _ _ e he
  · exact fun e he => mem_breakdown_percentage _ _ e he
  · exact fun e he => mem_breakdown_percentage _ _ e he
  · exact fun e he => mem_breakdown_percentage _ _ e he
  · exact fun e he => mem_breakdown_percentage _ _ e he
  · exact fun e he => mem_breakdown_percentage _ _ e he
  · exact fun e he => mem_breakdown_percentage _ _ e he
  · exact percentOf_eq_specPercentage _ _
  · exact fun p w => specPercentage_ne_js_garbage p w
  · exact fun p => rfl

/-- Witness for C2: at a concrete two-issue store the "Open" row carries
the rendered percentage "50.0", which the theorem identifies with the
spec's rounding of 1/2 · 100 to one decimal. -/
theorem percentage_fields_follow_spec_witness :
    ({ label := "Open", count := 1, percentage := "50.0" } : BreakdownEntry).percentage
      = specPercentage 1 2 :=
  (percentage_fields_follow_spec
      [mkIssue "Open" "Medium" "Minor" "u" none 0 none,
       mkIssue "Resolved" "High" "Major" "u" none 1 (some 5)] "u").1
    _ (by decide)

/-- Claim C4: for every issue collection and every scope (global, per-user
created, per-user assigned, dashboard "mine"), the counts of the returned
status breakdown sum to the total number of issues in that scope. -/
theorem status_breakdown_counts_sum (issues : List Issue) (userId : String) :
    ((generalStatusBreakdown issues).map BreakdownEntry.count).sum = issues.length ∧
    ((dashboardStatusBreakdown userId issues).map BreakdownEntry.count).sum
      = (createdScope userId issues).length ∧
    ((userCreatedStatusBreakdown userId issues).map BreakdownEntry.count).sum
      = (createdScope userId issues).length ∧
    ((userAssignedStatusBreakdown userId issues).map BreakdownEntry.count).sum
      = (assignedScope userId issues).length := by
  refine ⟨?_, ?_, ?_, ?_⟩
  · unfold generalStatusBreakdown
    rw [count_map_mk, sum_snd_sortByCountDesc, sum_snd_groupCounts]
  · unfold dashboardStatusBreakdown
    rw [count_map_mk, sum_snd_groupCounts]
  · unfold userCreatedStatusBreakdown
    rw [count_map_mk, sum_snd_groupCounts]
  · unfold userAssignedStatusBreakdown
    rw [count_map_mk, sum_snd_groupCounts]

lemma updateIssue_resolvedAt (i : Issue) (r : UpdateRequest) (now : Nat) :
    (updateIssue i r now).resolvedAt =
      if stampResolved i r then some now else i.resolvedAt := by
  unfold updateIssue applySet buildUpdateFields
  by_cases h : stampResolved i r <;> simp [h]

/-- Claim C1 counterexample: updating an Open issue to Resolved at time 1000
stamps resolvedAt = 1000, but the subsequent update to Closed at time 2000
overwrites it with 2000 — the already-set resolvedAt does not survive. -/
theorem resolvedAt_restamped_on_close :
    (updateIssue (mkIssue "Open" "Medium" "Minor" "u" none 0 none)
        { status := some "Resolved" } 1000).resolvedAt = some 1000 ∧
    (updateIssue (updateIssue (mkIssue "Open" "Medium" "Minor" "u" none 0 none)
          { status := some "Resolved" } 1000)
        { status := some "Closed" } 2000).resolvedAt = some 2000 ∧
    (updateIssue (updateIssue (mkIssue "Open" "Medium" "Minor" "u" none 0 none)
          { status := some "Resolved" } 1000)
        { status := some "Closed" } 2000).resolvedAt ≠ some 1000 := by
  refine ⟨by decide, by decide, by decide⟩

/-- Claim C1 (amended): updateIssue stamps resolvedAt to the update time at
every update whose new status is Resolved or Closed and differs from the
issue's current status — including a later Resolved→Closed transition,
which overwrites the earlier stamp; any other update leaves resolvedAt
unchanged, and a set resolvedAt is never cleared. -/
theorem updateIssue_resolvedAt_amended (i : Issue) (r : UpdateRequest) (now : Nat) :
    ((∃ s, r.status = some s ∧ (s = "Resolved" ∨ s = "Closed") ∧ i.status ≠ s) →
        (updateIssue i r now).resolvedAt = some now) ∧
    ((∀ s, r.status = some s → ((s ≠ "Resolved" ∧ s ≠ "Closed") ∨ i.status = s)) →
        (updateIssue i r now).resolvedAt = i.resolvedAt) ∧
    (i.resolvedAt ≠ none → (updateIssue i r now).resolvedAt ≠ none) := by
  refine ⟨?_, ?_, ?_⟩
  · rintro ⟨s, hs, hrc, hne⟩
    rw [updateIssue_resolvedAt]
    have hst : stampResolved i r = true := by
      unfold stampResolved
      rw [hs]
      rcases hrc with rfl | rfl <;> simp [hne] <;> decide
    rw [hst]
    rfl
  · intro h
    rw [updateIssue_resolvedAt]
    have hst : stampResolved i r = false := by
      unfold stampResolved
      cases hr : r.status with
      | none => rfl
      | some s =>
        rcases h s hr with ⟨h1, h2⟩ | h3
        · simp [h1, h2]
        · simp [h3]
    rw [hst]
    rfl
  · intro h
    rw [updateIssue_resolvedAt]
    by_cases hst : stampResolved i r <;> simp [hst, h]

/-- Witness for the amended C1: updating an Open issue to Resolved at time
7 stamps resolvedAt = 7. -/
theorem updateIssue_resolvedAt_amended_witness :
    (updateIssue (mkIssue "Open" "Medium" "Minor" "u" none 0 none)
        { status := some "Resolved" } 7).resolvedAt = some 7 :=
  (updateIssue_resolvedAt_amended (mkIssue "Open" "Medium" "Minor" "u" none 0 none)
      { status := some "Resolved" } 7).1 ⟨"Resolved", rfl, Or.inl rfl, by decide⟩

/-- Claim C8: every request field that is absent or falsy (empty string / null /
not provided) is left unchanged by updateIssue; consequently an existing
assignedTo reference can never be cleared, and title/description can never
be set to the empty string. -/
theorem updateIssue_frame (i : Issue) (r : UpdateRequest) (now : Nat) :
    (jsTruthy r.title = false → (updateIssue i r now).title = i.title) ∧
    (jsTruthy r.description = false → (updateIssue i r now).description = i.description) ∧
    (jsTruthy r.status = false → (updateIssue i r now).status = i.status) ∧
    (jsTruthy r.priority = false → (updateIssue i r now).priority = i.priority) ∧
    (jsTruthy r.severity = false → (updateIssue i r now).severity = i.severity) ∧
    (jsTruthy r.assignedTo = false → (updateIssue i r now).assignedTo = i.assignedTo) ∧
    (i.assignedTo ≠ none → (updateIssue i r now).assignedTo ≠ none) ∧
    ((updateIssue i r now).title = i.title ∨ (updateIssue i r now).title ≠ "") ∧
    ((updateIssue i r now).description = i.description ∨ (updateIssue i r now).description ≠ "") := by
  unfold updateIssue applySet buildUpdateFields
  refine ⟨?_, ?_, ?_, ?_, ?_, ?_, ?_, ?_, ?_⟩
  · intro h; simp [h]
  · intro h; simp [h]
  · intro h; simp [h]
  · intro h; simp [h]
  · intro h; simp [h]
  · intro h; simp [h]
  · intro h
    by_cases ht : jsTruthy r.assignedTo
    · cases ra : r.assignedTo with
      | none => rw [ra] at ht; simp [jsTruthy] at ht
      | some a => rw [ra] at ht; simp [ht, ra]
    · simp [eq_false_of_ne_true ht, h]
  · by_cases ht : jsTruthy r.title
    · right
      cases rt : r.title with
      | none => rw [rt] at ht; simp [jsTruthy] at ht
      | some s =>
        rw [rt] at ht
        have hs : s ≠ "" := by
          intro hempty
          rw [hempty] at ht
          exact absurd ht (by decide)
        simp [ht, rt, hs]
    · left; simp [eq_false_of_ne_true ht]
  · by_cases ht : jsTruthy r.description
    · right
      cases rt : r.description with
      | none => rw [rt] at ht; simp [jsTruthy] at ht
      | some s =>
        rw [rt] at ht
        have hs : s ≠ "" := by
          intro hempty
          rw [hempty] at ht
          exact absurd ht (by decide)
        simp [ht, rt, hs]
    · left; simp [eq_false_of_ne_true ht]

/-- Witness for C8: a request whose title is the empty string and whose
other fields are absent leaves both the title and an existing assignedTo
untouched. -/
theorem updateIssue_frame_witness :
    (updateIssue (mkIssue "Open" "Low" "Minor" "u" (some "a") 0 none)
        { title := some "" } 9).title = "t" ∧
    (updateIssue (mkIssue "Open" "Low" "Minor" "u" (some "a") 0 none)
        { title := some "" } 9).assignedTo ≠ none :=
  ⟨(updateIssue_frame (mkIssue "Open" "Low" "Minor" "u" (some "a") 0 none)
      { title := some "" } 9).1 (by decide),
   (updateIssue_frame (mkIssue "Open" "Low" "Minor" "u" (some "a") 0 none)
      { title := some "" } 9).2.2.2.2.2.2.1 (by decide)⟩

/-- Count of issues whose current status is Resolved or Closed. -/
def countResolvedOrClosed (issues : List Issue) : Nat :=
  (issues.filter (fun i => i.status == "Resolved" || i.status == "Closed")).length

/-- Claim C10: resolution statistics select issues by the presence of resolvedAt,
not by current status: an update that does not transition into
Resolved/Closed (for example reopening) leaves resolvedAt unchanged, any
update keeps a resolvedAt-stamped issue inside the resolution-statistics
match, and consequently totalResolved can exceed the number of issues
currently in status Resolved or Closed. -/
theorem resolution_stats_by_resolvedAt (i : Issue) (r : UpdateRequest) (now : Nat) :
    ((∀ s, r.status = some s → s ≠ "Resolved" ∧ s ≠ "Closed") →
        (updateIssue i r now).resolvedAt = i.resolvedAt) ∧
    (resolutionMatch i = true → resolutionMatch (updateIssue i r now) = true) ∧
    totalResolved [updateIssue (updateIssue (mkIssue "Open" "Medium" "Minor" "u" none 0 none)
          { status := some "Resolved" } 10) { status := some "Open" } 20]
      > countResolvedOrClosed
          [updateIssue (updateIssue (mkIssue "Open" "Medium" "Minor" "u" none 0 none)
            { status := some "Resolved" } 10) { status := some "Open" } 20] := by
  refine ⟨?_, ?_, by decide⟩
  · intro h
    rw [updateIssue_resolvedAt]
    have hst : stampResolved i r = false := by
      unfold stampResolved
      cases hr : r.status with
      | none => rfl
      | some s =>
        rcases h s hr with ⟨h1, h2⟩
        simp [h1, h2]
    rw [hst]
    rfl
  · intro h
    unfold resolutionMatch at h ⊢
    rw [updateIssue_resolvedAt]
    by_cases hst : stampResolved i r <;> simp [hst, h]

/-- Witness for C10: reopening a resolved issue keeps its resolvedAt stamp
and keeps it inside the resolution-statistics match. -/
theorem resolution_stats_by_resolvedAt_witness :
    (updateIssue (mkIssue "Resolved" "Medium" "Minor" "u" none 0 (some 10))
        { status := some "Open" } 20).resolvedAt = some 10 ∧
    resolutionMatch (updateIssue (mkIssue "Resolved" "Medium" "Minor" "u" none 0 (some 10))
        { status := some "Open" } 20) = true :=
  ⟨(resolution_stats_by_resolvedAt (mkIssue "Resolved" "Medium" "Minor" "u" none 0 (some 10))
      { status := some "Open" } 20).1
      (by intro s hs; simp only [Option.some.injEq] at hs; subst hs; decide),
   (resolution_stats_by_resolvedAt (mkIssue "Resolved" "Medium" "Minor" "u" none 0 (some 10))
      { status := some "Open" } 20).2.1 (by decide)⟩

/-- The response of the `login` controller: either a 400 failure with a
message, or the signed token together with the public profile. -/
inductive LoginResponse where
  | fail (status : Nat) (msg : String)
  | ok (token : String) (id : String) (name : String) (email : String)
deriving DecidableEq, Repr

/-- `User.findOne(\x7b email \x7d)`. -/
def findUserByEmail (users : List UserRec) (email : String) : Option UserRec :=
  users.find? (fun u => u.email == email)

/-- The `login` controller, with `bcrypt.compare` abstracted as the hash
comparison `compare` and `jwt.sign` abstracted as `sign` over the payload
user id. -/
def login (compare : String → String → Bool) (sign : String → String)
    (users : List UserRec) (email password : String) : LoginResponse :=
  match findUserByEmail users email with
  | none => .fail 400 "Invalid credentials"
  | some u =>
      if compare password u.password then .ok (sign u.id) u.id u.name u.email
      else .fail 400 "Invalid credentials"

/-- Claim C7: every failing login - unknown email or failed hash comparison -
produces the identical response, status 400 with the message "Invalid
credentials", so the two failure causes are observably indistinguishable. -/
theorem login_failures_indistinguishable (compare : String → String → Bool)
    (sign : String → String) (users : List UserRec) :
    (∀ email password, findUserByEmail users email = none →
        login compare sign users email password = .fail 400 "Invalid credentials") ∧
    (∀ email password u, findUserByEmail users email = some u →
        compare password u.password = false →
        login compare sign users email password = .fail 400 "Invalid credentials") ∧
    (∀ e1 p1 e2 p2 u2, findUserByEmail users e1 = none →
        findUserByEmail users e2 = some u2 → compare p2 u2.password = false →
        login compare sign users e1 p1 = login compare sign users e2 p2) := by
  refine ⟨?_, ?_, ?_⟩
  · intro email password h
    unfold login
    rw [h]
  · intro email password u h hc
    unfold login
    rw [h]
    simp [hc]
  · intro e1 p1 e2 p2 u2 h1 h2 hc
    unfold login
    rw [h1, h2]
    simp [hc]

/-- Witness for C7: with one registered user, a login under an unknown
email and a login under the right email but wrong password return the very
same response. -/
theorem login_failures_indistinguishable_witness :
    login (fun p h => p == h) (fun s => s) [⟨"u1", "Ann", "a@x.io", "hash1"⟩]
        "nobody@x.io" "pw"
      = login (fun p h => p == h) (fun s => s) [⟨"u1", "Ann", "a@x.io", "hash1"⟩]
        "a@x.io" "wrong" :=
  (login_failures_indistinguishable (fun p h => p == h) (fun s => s)
      [⟨"u1", "Ann", "a@x.io", "hash1"⟩]).2.2
    "nobody@x.io" "pw" "a@x.io" "wrong" ⟨"u1", "Ann", "a@x.io", "hash1"⟩
    (by decide) (by decide) (by decide)

/-- Lexicographic (year, month) order on trend bucket keys, the order of
the pipeline's `$sort: \x7b "_id.year": 1, "_id.month": 1 \x7d` stage. -/
def ymLe (a b : Nat × Nat) : Prop := a.1 < b.1 ∨ (a.1 = b.1 ∧ a.2 ≤ b.2)

/-- Strict lexicographic (year, month) order. -/
def ymLt (a b : Nat × Nat) : Prop := a.1 < b.1 ∨ (a.1 = b.1 ∧ a.2 < b.2)

/-- Bucket order lifted to (bucket, count) rows. -/
def bucketCountLe (a b : (Nat × Nat) × Nat) : Prop := ymLe a.1 b.1

/-- Strict bucket order lifted to (bucket, count) rows. -/
def bucketLtRel (a b : (Nat × Nat) × Nat) : Prop := ymLt a.1 b.1

instance : DecidableRel bucketCountLe :=
  fun a b => by unfold bucketCountLe ymLe; infer_instance

instance : IsTotal ((Nat × Nat) × Nat) bucketCountLe :=
  ⟨by intro a b; unfold bucketCountLe ymLe; omega⟩

instance : IsTrans ((Nat × Nat) × Nat) bucketCountLe :=
  ⟨by intro a b c h1 h2; unfold bucketCountLe ymLe at h1 h2 ⊢; omega⟩

/-- The `$group` key `\x7b year: \x7b $year: "$createdAt" \x7d, month: \x7b $month:
"$createdAt" \x7d \x7d`: the calendar (year, month) of a timestamp, supplied by
the abstract calendar functions `yearOf` and `monthOf`. -/
def bucketOf (yearOf monthOf : Nat → Nat) (t : Nat) : Nat × Nat :=
  (yearOf t, monthOf t)

/-- The monthly-trend pipeline shared by `getGeneralAnalytics` and
`getUserAnalytics` (there applied to the created-by-user scope): match
`createdAt ≥ yearStart`, group by (year, month) with counts, sort
ascending by (year, month). -/
def monthlyBuckets (yearOf monthOf : Nat → Nat) (yearStart : Nat)
    (issues : List Issue) : List ((Nat × Nat) × Nat) :=
  (valueCounts ((issues.filter (fun i => decide (yearStart ≤ i.createdAt))).map
      (fun i => bucketOf yearOf monthOf i.createdAt))).insertionSort bucketCountLe

/-- `String(month).padStart(2, "0")` for the month strings produced here
(length one or two). -/
def pad2 (s : String) : String :=
  if 2 ≤ s.length then s else if s.length = 1 then "0" ++ s else "00"

/-- The rendered trend key `` `${year}-${String(month).padStart(2, "0")}` ``. -/
def monthKey (b : Nat × Nat) : String :=
  toString b.1 ++ "-" ++ pad2 (toString b.2)

/-- The `monthlyTrend` array of the responses: rendered keys with counts. -/
def monthlyTrend (yearOf monthOf : Nat → Nat) (yearStart : Nat)
    (issues : List Issue) : List (String × Nat) :=
  (monthlyBuckets yearOf monthOf yearStart issues).map (fun e => (monthKey e.1, e.2))

lemma pad2_toString_length (m : Nat) (h1 : 1 ≤ m) (h2 : m ≤ 12) :
    (pad2 (toString m)).length = 2 := by
  interval_cases m <;> decide

lemma count_pos_of_mem {α : Type} [DecidableEq α] {a : α} {l : List α}
    (h : a ∈ l) : 0 < l.count a :=
  List.count_pos_iff.2 h

lemma bucketCountLe_ne_lt {a b : (Nat × Nat) × Nat}
    (hle : bucketCountLe a b) (hne : a.1 ≠ b.1) : bucketLtRel a b := by
  rcases a with ⟨⟨y1, m1⟩, c1⟩
  rcases b with ⟨⟨y2, m2⟩, c2⟩
  unfold bucketCountLe ymLe at hle
  unfold bucketLtRel ymLt
  simp only at hle hne ⊢
  have hne' : ¬ (y1 = y2 ∧ m1 = m2) := by
    rintro ⟨rfl, rfl⟩
    exact hne rfl
  omega

/-- Claim C6: the monthly trend lists only (year, month) buckets containing at
least one in-scope issue created at or after `yearStart` (= now minus one
year), every bucket is at least the bucket of `yearStart` (no entry older
than 12 months), its key renders as year, "-", and the month zero-padded
to two digits, and the rows are strictly ascending by (year, month).
`yearOf`/`monthOf` are the calendar extractors, assumed monotone in the
timestamp and with months in 1..12. -/
theorem monthly_trend_spec (yearOf monthOf : Nat → Nat) (yearStart : Nat)
    (issues : List Issue)
    (hmono : ∀ t1 t2, t1 ≤ t2 →
      ymLe (bucketOf yearOf monthOf t1) (bucketOf yearOf monthOf t2))
    (hrange : ∀ t, 1 ≤ monthOf t ∧ monthOf t ≤ 12) :
    (∀ e ∈ monthlyBuckets yearOf monthOf yearStart issues,
        0 < e.2 ∧
        (∃ i ∈ issues, yearStart ≤ i.createdAt ∧
            bucketOf yearOf monthOf i.createdAt = e.1) ∧
        ymLe (bucketOf yearOf monthOf yearStart) e.1 ∧
        monthKey e.1 = toString e.1.1 ++ "-" ++ pad2 (toString e.1.2) ∧
        (pad2 (toString e.1.2)).length = 2) ∧
    List.Pairwise bucketLtRel (monthlyBuckets yearOf monthOf yearStart issues) := by
  constructor
  · intro e he
    have he' := (List.mem_insertionSort bucketCountLe).1 he
    unfold valueCounts at he'
    rcases List.mem_map.1 he' with ⟨k, hk, rfl⟩
    have hkv := List.mem_dedup.1 hk
    rcases List.mem_map.1 hkv with ⟨i, hi, hik⟩
    have hif := List.mem_filter.1 hi
    have hge : yearStart ≤ i.createdAt := of_decide_eq_true hif.2
    refine ⟨count_pos_of_mem hkv, ⟨i, hif.1, hge, hik⟩, ?_, rfl, ?_⟩
    · have hm := hmono yearStart i.createdAt hge
      rw [hik] at hm
      exact hm
    · rcases hrange i.createdAt with ⟨hm1, hm2⟩
      rw [← hik]
      exact pad2_toString_length _ hm1 hm2
  · have hsorted : List.Sorted bucketCountLe
        (monthlyBuckets yearOf monthOf yearStart issues) :=
      List.sorted_insertionSort bucketCountLe _
    have hperm := List.perm_insertionSort bucketCountLe
      (valueCounts ((issues.filter (fun i => decide (yearStart ≤ i.createdAt))).map
        (fun i => bucketOf yearOf monthOf i.createdAt)))
    have hnd : List.Pairwise (fun a b : (Nat × Nat) × Nat => a.1 ≠ b.1)
        (valueCounts ((issues.filter (fun i => decide (yearStart ≤ i.createdAt))).map
          (fun i => bucketOf yearOf monthOf i.createdAt))) := by
      unfold valueCounts
      rw [List.pairwise_map]
      exact List.nodup_dedup _
    have hnds : List.Pairwise (fun a b : (Nat × Nat) × Nat => a.1 ≠ b.1)
        (monthlyBuckets yearOf monthOf yearStart issues) :=
      (List.Perm.pairwise_iff (fun h => Ne.symm h) hperm).2 hnd
    exact (hsorted.and hnds).imp (fun h => bucketCountLe_ne_lt h.1 h.2)

/-- Identity calendar used to witness the trend theorem. -/
def idYear : Nat → Nat := fun t => t

/-- Constant January used to witness the trend theorem. -/
def oneMonth : Nat → Nat := fun _ => 1

/-- Witness for C6: on a concrete two-issue store the computed trend rows
are strictly ascending by (year, month). -/
theorem monthly_trend_spec_witness :
    List.Pairwise bucketLtRel (monthlyBuckets idYear oneMonth 4
      [mkIssue "Open" "Low" "Minor" "u" none 5 none,
       mkIssue "Open" "Low" "Minor" "u" none 3 none]) :=
  (monthly_trend_spec idYear oneMonth 4
      [mkIssue "Open" "Low" "Minor" "u" none 5 none,
       mkIssue "Open" "Low" "Minor" "u" none 3 none]
      (by intro t1 t2 h; unfold bucketOf idYear oneMonth ymLe; omega)
      (by intro t; unfold oneMonth; omega)).2

/-- A hexadecimal digit, as accepted inside a 24-character ObjectId. -/
def isHexDigitChar (c : Char) : Bool :=
  ('0' ≤ c && c ≤ '9') || ('a' ≤ c && c ≤ 'f') || ('A' ≤ c && c ≤ 'F')

/-- `mongoose.Types.ObjectId.isValid`: a 24-character hex string or a
12-character string. -/
def isValidObjectId (s : String) : Bool :=
  (s.length == 24 && s.data.all isHexDigitChar) || s.length == 12

/-- A read query issued against the stores by `getUserAnalytics`; the
handler never issues a write. -/
inductive StoreQuery where
  | userLookup (id : String)
  | issueAggregation (scope : String)
deriving DecidableEq, Repr

/-- The success payload of `getUserAnalytics`: the target user's public
profile (id, name, email - never the password hash) plus the aggregates. -/
structure UserAnalyticsOk where
  userId : String
  userName : String
  userEmail : String
  totalCreated : Nat
  totalAssigned : Nat
  createdStatus : List BreakdownEntry
  createdPriority : List BreakdownEntry
  createdSeverity : List BreakdownEntry
  assignedStatus : List BreakdownEntry
  resolutionRate : String
  monthlyTrendSeries : List (String × Nat)
deriving DecidableEq, Repr

/-- The response of `getUserAnalytics`: 400 for a malformed id, 404 for an
unknown user, otherwise the analytics report. -/
inductive AnalyticsResponse where
  | invalidInput (status : Nat) (msg : String)
  | notFound (status : Nat) (msg : String)
  | ok (r : UserAnalyticsOk)
deriving DecidableEq, Repr

/-- The `getUserAnalytics` controller, returning the list of store queries
it issues (in order) together with the HTTP response.  The guard
`!userId || !mongoose.Types.ObjectId.isValid(userId)` runs before any
store access; the `User.findById` lookup runs before any aggregation. -/
def getUserAnalytics (users : List UserRec) (issues : List Issue)
    (yearOf monthOf : Nat → Nat) (yearStart : Nat) (userId : String) :
    List StoreQuery × AnalyticsResponse :=
  if userId.isEmpty || !isValidObjectId userId then
    ([], .invalidInput 400 "Invalid user ID")
  else
    match findUserById users userId with
    | none => ([.userLookup userId], .notFound 404 "User not found")
    | some u =>
        ([.userLookup userId, .issueAggregation "createdBy",
          .issueAggregation "assignedTo", .issueAggregation "timeBased",
          .issueAggregation "resolution", .issueAggregation "trend"],
         .ok {
           userId := u.id, userName := u.name, userEmail := u.email,
           totalCreated := (createdScope userId issues).length,
           totalAssigned := (assignedScope userId issues).length,
           createdStatus := userCreatedStatusBreakdown userId issues,
           createdPriority := userCreatedPriorityBreakdown userId issues,
           createdSeverity := userCreatedSeverityBreakdown userId issues,
           assignedStatus := userAssignedStatusBreakdown userId issues,
           resolutionRate := userResolutionRate userId issues,
           monthlyTrendSeries :=
             monthlyTrend yearOf monthOf yearStart (createdScope userId issues) })

lemma isValidObjectId_not_empty {s : String} (h : isValidObjectId s = true) :
    s.isEmpty = false := by
  rcases hs : s.isEmpty with _ | _
  · rfl
  · rw [(String.isEmpty_iff s).1 hs] at h
    exact absurd h (by decide)

/-- Claim C5: getUserAnalytics rejects a syntactically invalid target id with a
400 InvalidInput response before issuing any store query, and rejects a
well-formed id matching no user with a 404 NotFound response after only
the user lookup; in both failure cases no analytics aggregation runs (the
query log carries no aggregation) and, the handler being a pure read, no
state changes. -/
theorem getUserAnalytics_guards (users : List UserRec) (issues : List Issue)
    (yearOf monthOf : Nat → Nat) (yearStart : Nat) (userId : String) :
    (isValidObjectId userId = false →
        getUserAnalytics users issues yearOf monthOf yearStart userId
          = ([], .invalidInput 400 "Invalid user ID")) ∧
    (isValidObjectId userId = true → findUserById users userId = none →
        getUserAnalytics users issues yearOf monthOf yearStart userId
          = ([.userLookup userId], .notFound 404 "User not found")) := by
  constructor
  · intro h
    unfold getUserAnalytics
    rw [h]
    simp
  · intro h hfind
    unfold getUserAnalytics
    rw [h, isValidObjectId_not_empty h]
    simp only [Bool.or_self, Bool.not_true, Bool.or_false, if_neg]
    rw [hfind]
    simp

/-- Witness for C5: the malformed id "zz" yields 400 with no query issued,
and a well-formed 24-hex id unknown to the user store yields 404 after
only the user lookup. -/
theorem getUserAnalytics_guards_witness :
    getUserAnalytics [] [] idYear oneMonth 0 "zz"
      = ([], .invalidInput 400 "Invalid user ID") ∧
    getUserAnalytics [] [] idYear oneMonth 0 "aaaaaaaaaaaaaaaaaaaaaaaa"
      = ([.userLookup "aaaaaaaaaaaaaaaaaaaaaaaa"], .notFound 404 "User not found") :=
  ⟨(getUserAnalytics_guards [] [] idYear oneMonth 0 "zz").1 (by decide),
   (getUserAnalytics_guards [] [] idYear oneMonth 0 "aaaaaaaaaaaaaaaaaaaaaaaa").2
     (by decide) rfl⟩

/-- Lexicographic order on code-point lists: MongoDB's simple binary
collation on (ASCII) strings. -/
def codeListLt : List Nat → List Nat → Bool
  | _, [] => false
  | [], _ :: _ => true
  | a :: as, b :: bs => if a < b then true else if b < a then false else codeListLt as bs

/-- MongoDB's binary string comparison, on the characters' code points. -/
def mongoStrLt (a b : String) : Bool :=
  codeListLt (a.data.map Char.toNat) (b.data.map Char.toNat)

/-- The comparator realised by Mongo's `sort(\x7b priority: -1, createdAt: -1 \x7d)`
on the stored documents: priority strings descending in the binary
string order Mongo uses, then createdAt descending. -/
def priorityCreatedDesc (a b : Issue) : Prop :=
  mongoStrLt b.priority a.priority = true ∨
    (a.priority = b.priority ∧ b.createdAt ≤ a.createdAt)

instance : DecidableRel priorityCreatedDesc :=
  fun a b => by unfold priorityCreatedDesc; infer_instance

/-- The `highPriorityAssigned` query of `getDashboard`: assigned to the
user, priority in \x7bHigh, Critical\x7d, status not Closed, sorted by
`\x7b priority: -1, createdAt: -1 \x7d`, limited to 5. -/
def highPriorityAssigned (userId : String) (issues : List Issue) : List Issue :=
  ((issues.filter (fun i => i.assignedTo == some userId
      && (i.priority == "High" || i.priority == "Critical")
      && i.status != "Closed")).insertionSort priorityCreatedDesc).take 5

/-- Claim C3 (divergence witness): `sort(\x7b priority: -1 \x7d)` orders the stored
priority STRINGS bytewise descending, and "High" > "Critical" in that
order, so a High issue is listed before a Critical one - the domain
ordering Critical > High demanded by the claim is violated.  Here the
Critical issue is even the newer one. -/
theorem highPriorityAssigned_string_sort :
    highPriorityAssigned "u"
        [mkIssue "Open" "Critical" "Major" "c" (some "u") 100 none,
         mkIssue "Open" "High" "Minor" "c" (some "u") 50 none]
      = [mkIssue "Open" "High" "Minor" "c" (some "u") 50 none,
         mkIssue "Open" "Critical" "Major" "c" (some "u") 100 none] ∧
    mongoStrLt "Critical" "High" = true := by
  exact ⟨by decide, by decide⟩

/-- The `$group`-by-actor key of the top-creators pipeline (`createdBy` is
a required field, so every issue contributes). -/
def creatorKey (i : Issue) : Option String := some i.createdBy

/-- The actor key of the top-assignees pipeline; the pipeline's
`$match: \x7b assignedTo: \x7b $exists: true, $ne: null \x7d \x7d` drops unassigned
issues, here by the key being `none`. -/
def assigneeKey (i : Issue) : Option String := i.assignedTo

/-- The first stages of the user-activity pipelines of
`getGeneralAnalytics`: group by the actor id, `$sort: \x7b count: -1 \x7d`,
`$limit: 10` - before any join with the user collection. -/
def topActorIds (getActor : Issue → Option String) (issues : List Issue) :
    List (String × Nat) :=
  ((valueCounts (issues.filterMap getActor)).insertionSort countDescRel).take 10

/-- One row of `topCreators`/`topAssignees` after the `$lookup`/`$unwind`/
`$project` stages. -/
structure TopUserEntry where
  userId : String
  userName : String
  userEmail : String
  count : Nat
deriving DecidableEq, Repr

/-- The full user-activity pipeline: the limited top-10 id list joined
against the user collection; `$unwind` on an empty lookup result drops the
row entirely. -/
def topActors (getActor : Issue → Option String) (users : List UserRec)
    (issues : List Issue) : List TopUserEntry :=
  (topActorIds getActor issues).filterMap
    (fun e => (findUserById users e.1).map
      (fun u => { userId := e.1, userName := u.name, userEmail := u.email, count := e.2 }))

/-- `topCreators` of `getGeneralAnalytics`. -/
def topCreators (users : List UserRec) (issues : List Issue) : List TopUserEntry :=
  topActors creatorKey users issues

/-- `topAssignees` of `getGeneralAnalytics`. -/
def topAssignees (users : List UserRec) (issues : List Issue) : List TopUserEntry :=
  topActors assigneeKey users issues

lemma length_filterMap_lt {α β : Type} (f : α → Option β) :
    ∀ (l : List α) (x : α), x ∈ l → f x = none → (l.filterMap f).length < l.length := by
  intro l
  induction l with
  | nil => intro x hx; cases hx
  | cons a l ih =>
    intro x hx hfx
    rcases List.mem_cons.1 hx with rfl | hxl
    · rw [List.filterMap_cons, hfx]
      exact Nat.lt_succ_of_le (List.length_filterMap_le f l)
    · cases hfa : f a with
      | none =>
        rw [List.filterMap_cons, hfa]
        exact Nat.lt_succ_of_lt (ih x hxl hfx)
      | some b =>
        rw [List.filterMap_cons, hfa]
        simp only [List.length_cons]
        exact Nat.succ_lt_succ (ih x hxl hfx)

/-- Claim C9: the user-activity pipelines apply `$limit: 10` before the
`$lookup`/`$unwind` join, so whenever one of the ten highest-count actor
ids has no user record, the joined result has fewer than ten rows - even
if more than ten distinct actors with resolvable profiles occur in the
issue collection (instantiate `getActor` with `creatorKey` or
`assigneeKey` for the two pipelines). -/
theorem topActors_limit_before_join (getActor : Issue → Option String)
    (users : List UserRec) (issues : List Issue) (id : String) (c : Nat)
    (h1 : (id, c) ∈ topActorIds getActor issues)
    (h2 : findUserById users id = none) :
    (topActors getActor users issues).length < 10 := by
  have hlt := length_filterMap_lt
    (fun e : String × Nat => (findUserById users e.1).map
      (fun u => ({ userId := e.1, userName := u.name, userEmail := u.email,
                   count := e.2 } : TopUserEntry)))
    (topActorIds getActor issues) (id, c) h1 (by simp only []; rw [h2]; rfl)
  have hle : (topActorIds getActor issues).length ≤ 10 := by
    unfold topActorIds
    rw [List.length_take]
    exact Nat.min_le_left _ _
  exact lt_of_lt_of_le hlt hle

/-- The twelve-distinct-creator store used to witness C9: `u0` has the
highest count but no user record; eleven other creators are resolvable. -/
def elevenPlusIssues : List Issue :=
  mkIssue "Open" "Low" "Minor" "u0" none 0 none ::
  mkIssue "Open" "Low" "Minor" "u0" none 1 none ::
  (List.range 11).map (fun n => mkIssue "Open" "Low" "Minor" ("v" ++ toString n) none (n + 2) none)

/-- The user store for the C9 witness: every creator except `u0`. -/
def elevenUsers : List UserRec :=
  (List.range 11).map (fun n => { id := "v" ++ toString n, name := "n", email := "e", password := "h" })

/-- Witness for C9: `u0` tops the creator counts but is unresolvable, so
the joined top-creators list has fewer than ten rows although eleven
distinct resolvable creators exist. -/
theorem topActors_limit_before_join_witness :
    ("u0", 2) ∈ topActorIds creatorKey elevenPlusIssues ∧
    findUserById elevenUsers "u0" = none ∧
    (topActors creatorKey elevenUsers elevenPlusIssues).length < 10 ∧
    ((elevenPlusIssues.filterMap creatorKey).dedup.filter
        (fun a => (findUserById elevenUsers a).isSome)).length = 11 :=
  ⟨by decide, by decide,
   topActors_limit_before_join creatorKey elevenUsers elevenPlusIssues "u0" 2
     (by decide) (by decide),
   by decide⟩
